import Mathlib

/-!  A shallow embedding of mythril's `SymExecWrapper`
(`mythril/analysis/symbolic.py`): the orchestration of one symbolic-execution
run (strategy selection, account bootstrapping, engine/plugin assembly,
dispatch) and the call-site extraction pass over the resulting execution
graph.  The exploration engine, strategies, plugins and module loader are
external collaborators; their outputs enter through an explicit environment.
-/

namespace Mythril

/-- Modelled from the spec: an operand read from a stack or memory is
classified as either a concrete integer or an unresolved symbolic expression.
This is the tagged classification produced by `mythril.analysis.ops`
(`VarType`/`get_variable`), whose module is not among the sources here; the
symbolic variant carries an opaque expression identifier. -/
inductive Value where
  | concrete (val : Nat)
  | symbolic (ref : Nat)
deriving DecidableEq, Repr

/-- The instruction executed at a state; the extractor consults its
`opcode` field (`state.get_current_instruction()["opcode"]`). -/
structure Instruction where
  opcode : String
deriving DecidableEq, Repr

/-- The machine part of a state: the operand stack (last element is the top,
so Python `stack[-1]` is the top entry) and the linear memory region. -/
structure MachineState where
  stack : List Value
  memory : List Nat
deriving DecidableEq, Repr

/-- One point-in-time machine snapshot of the execution graph. -/
structure GlobalState where
  mstate : MachineState
  instruction : Instruction
deriving DecidableEq, Repr

/-- Returns the instruction executed at this state. -/
def GlobalState.get_current_instruction (s : GlobalState) : Instruction :=
  s.instruction

/-- A node of the execution graph: an ordered sequence of states sharing a
control-flow segment, keyed by an opaque identifier. -/
structure Node where
  uid : Nat
  states : List GlobalState
deriving DecidableEq, Repr

/-- An edge of the execution graph (opaque to this core; carried through
from the engine's `edges` field). -/
structure Edge where
  node_from : Nat
  node_to : Nat
deriving DecidableEq, Repr

/-- External constant `mythril.laser.ethereum.natives.PRECOMPILE_COUNT`: the
number of reserved precompiled-contract addresses. -/
def PRECOMPILE_COUNT : Nat := 9

/-- External constant `ACTORS.creator.value` from
`mythril.laser.ethereum.transaction.symbolic`: the fixed well-known address
of the creator actor. -/
def CREATOR_ADDRESS : Nat := 0xAFFEAFFEAFFEAFFEAFFEAFFEAFFEAFFEAFFEAFFE

/-- External constant `ACTORS.attacker.value` from
`mythril.laser.ethereum.transaction.symbolic`: the fixed well-known address
of the attacker actor. -/
def ATTACKER_ADDRESS : Nat := 0xDEADBEEFDEADBEEFDEADBEEFDEADBEEFDEADBEEF

/-- Modelled from the spec: one Call Record per qualifying call-family
occurrence (`mythril.analysis.ops.Call`, whose module is not among the
sources here): owning node, owning state, the value of the extractor's
state-index counter, the opcode, the decoded target and gas operands, and —
for the value-transferring variants — the transferred value and an optional
materialized input-data range. -/
structure Call where
  node : Node
  state : GlobalState
  state_index : Nat
  op : String
  «to» : Value
  gas : Value
  value : Option Value
  data : Option (List Nat)
deriving DecidableEq, Repr

/-- Python `stack[-n]` for `n ≥ 1`: the `n`-th entry from the top of the
operand stack; `none` models the `IndexError` raised when the stack holds
fewer than `n` entries. -/
def stackNeg (stack : List Value) (n : Nat) : Option Value :=
  stack.reverse[n - 1]?

/-- Python slice `l[a : b]` for nonnegative bounds: the elements at indices
`a ≤ i < b`, clamped to the length of `l`. -/
def pySlice (l : List Nat) (a b : Nat) : List Nat :=
  (l.drop a).take (b - a)

/-- The precompile filter of the extractor:
`to.type == VarType.CONCRETE and 0 < to.val <= PRECOMPILE_COUNT`. -/
def precompileFiltered : Value → Bool
  | Value.concrete t => decide (0 < t) && decide (t ≤ PRECOMPILE_COUNT)
  | Value.symbolic _ => false

/-- The data field attached by the value-transferring emit path: the
materialized memory slice when both bounds are concrete, absent otherwise. -/
def callDataOf (meminstart meminsz : Value) (memory : List Nat) : Option (List Nat) :=
  match meminstart, meminsz with
  | Value.concrete mi, Value.concrete ms => some (pySlice memory mi (ms + mi))
  | _, _ => none

/-- One iteration of the extraction loop body for a single state
(`symbolic.py` lines 202-272).  Returns the records appended for this state
together with a flag telling whether `state_index += 1` at the end of the
loop body is reached: the `continue` taken on a precompile-filtered
`CALL`/`CALLCODE` skips the increment.  `Except.error` models the
`IndexError` raised when the stack holds fewer operands than the opcode
variant requires. -/
def stateStep (nd : Node) (state : GlobalState) (state_index : Nat) :
    Except String (List Call × Bool) :=
  let op := state.get_current_instruction.opcode
  if op = "CALL" ∨ op = "CALLCODE" ∨ op = "DELEGATECALL" ∨ op = "STATICCALL" then
    let stack := state.mstate.stack
    if op = "CALL" ∨ op = "CALLCODE" then
      match stackNeg stack 1, stackNeg stack 2, stackNeg stack 3, stackNeg stack 4,
            stackNeg stack 5, stackNeg stack 6, stackNeg stack 7 with
      | some gas, some a, some value, some meminstart, some meminsz, some _, some _ =>
        if precompileFiltered a then
          Except.ok ([], false)
        else
          match meminstart, meminsz with
          | Value.concrete mi, Value.concrete ms =>
              Except.ok ([{ node := nd, state := state, state_index := state_index,
                            op := op, «to» := a, gas := gas, value := some value,
                            data := some (pySlice state.mstate.memory mi (ms + mi)) }], true)
          | _, _ =>
              Except.ok ([{ node := nd, state := state, state_index := state_index,
                            op := op, «to» := a, gas := gas, value := some value,
                            data := none }], true)
      | _, _, _, _, _, _, _ => Except.error "IndexError"
    else
      match stackNeg stack 1, stackNeg stack 2, stackNeg stack 3,
            stackNeg stack 4, stackNeg stack 5, stackNeg stack 6 with
      | some gas, some a, some _, some _, some _, some _ =>
          Except.ok ([{ node := nd, state := state, state_index := state_index,
                        op := op, «to» := a, gas := gas, value := none, data := none }], true)
      | _, _, _, _, _, _ => Except.error "IndexError"
  else
    Except.ok ([], true)

/-- The extraction loop over the states of one node, threading the
state-index counter exactly as the source does (it starts at 0 and is
incremented at the end of the loop body, which a precompile `continue`
skips). -/
def extractStates (nd : Node) : List GlobalState → Nat → Except String (List Call)
  | [], _ => Except.ok []
  | s :: rest, i =>
      match stateStep nd s i with
      | Except.error e => Except.error e
      | Except.ok (cs, inc) =>
          match extractStates nd rest (if inc then i + 1 else i) with
          | Except.error e => Except.error e
          | Except.ok csRest => Except.ok (cs ++ csRest)

/-- The extraction pass over one node: its states in order, the counter
starting at 0. -/
def extractNodeCalls (nd : Node) : Except String (List Call) :=
  extractStates nd nd.states 0

/-- The full call-site extraction pass: nodes in iteration order, records
appended to one shared collection (`self.calls`). -/
def extractCalls : List Node → Except String (List Call)
  | [] => Except.ok []
  | nd :: rest =>
      match extractNodeCalls nd with
      | Except.error e => Except.error e
      | Except.ok a =>
          match extractCalls rest with
          | Except.error e => Except.error e
          | Except.ok b => Except.ok (a ++ b)

/-- A traversal-policy type, one per strategy class imported from
`mythril.laser.ethereum.strategy.basic`. -/
inductive Strategy where
  | DepthFirstSearchStrategy
  | BreadthFirstSearchStrategy
  | ReturnRandomNaivelyStrategy
  | ReturnWeightedRandomStrategy
deriving DecidableEq, Repr

/-- The strategy-name dispatch of `SymExecWrapper.__init__` (the `if`/`elif`
chain on the `strategy` argument; an unrecognized name raises
`ValueError("Invalid strategy argument supplied")`). -/
def selectStrategy (strategy : String) : Except String Strategy :=
  if strategy = "dfs" then Except.ok Strategy.DepthFirstSearchStrategy
  else if strategy = "bfs" then Except.ok Strategy.BreadthFirstSearchStrategy
  else if strategy = "naive-random" then Except.ok Strategy.ReturnRandomNaivelyStrategy
  else if strategy = "weighted-random" then Except.ok Strategy.ReturnWeightedRandomStrategy
  else Except.error "Invalid strategy argument supplied"

/-- A dynamic loader handle; only its `storage_loading` flag is consulted by
this core. -/
structure DynLoader where
  storage_loading : Bool
deriving DecidableEq, Repr

/-- The run-relevant shape of the `contract` argument: a fully compiled
source-level contract (`SolidityContract`) or a bytecode-level contract
(`EVMContract`); `SolidityContract` instances take the first `isinstance`
branch, so only plain `EVMContract` instances reach the second. -/
inductive ContractKind where
  | solidity
  | evm
deriving DecidableEq, Repr

/-- The contract metadata consumed by the orchestrator: its kind, name,
creation bytecode (empty string when absent, matching Python falsiness) and
its disassembly (opaque here). -/
structure Contract where
  kind : ContractKind
  name : String
  creation_code : String
  disassembly : String
deriving DecidableEq, Repr

/-- An actor or contract account, with the keyword fields of the `Account`
constructor used by the orchestrator (the address is kept numeric; the
`hex(...)` rendering used for dictionary keys is representation only). -/
structure Account where
  address : Nat
  code : String
  dynamic_loader : Option DynLoader
  contract_name : Option String
  concrete_storage : Bool
deriving DecidableEq, Repr

/-- The `address` argument of `SymExecWrapper.__init__`: a hex string, a
native integer, or an already-built 256-bit value. -/
inductive AddressLike where
  | str (s : String)
  | int (n : Nat)
  | bitvec (v : Nat)
deriving DecidableEq, Repr

/-- The numeric value of one hexadecimal digit, if `c` is one. -/
def hexDigitVal (c : Char) : Option Nat :=
  if '0' ≤ c ∧ c ≤ '9' then some (c.toNat - '0'.toNat)
  else if 'a' ≤ c ∧ c ≤ 'f' then some (c.toNat - 'a'.toNat + 10)
  else if 'A' ≤ c ∧ c ≤ 'F' then some (c.toNat - 'A'.toNat + 10)
  else none

/-- Accumulating base-16 evaluation of a digit sequence; `none` on the first
non-hex character. -/
def hexValAux : List Char → Nat → Option Nat
  | [], acc => some acc
  | c :: rest, acc =>
      match hexDigitVal c with
      | some d => hexValAux rest (acc * 16 + d)
      | none => none

/-- Python `int(s, 16)` on the address strings this core receives: an
optional `0x`/`0X` prefix followed by a nonempty run of hex digits; `none`
models the `ValueError` on anything else. -/
def intBase16 (s : String) : Option Nat :=
  let cs := s.data
  let cs := if cs.take 2 = ['0', 'x'] ∨ cs.take 2 = ['0', 'X'] then cs.drop 2 else cs
  if cs = [] then none else hexValAux cs 0

/-- Address normalization at the top of `__init__`: a string is parsed as
hex and a native integer is wrapped, both truncated to 256 bits by
`BitVecVal(· , 256)`; an already-built value passes through. -/
def normalizeAddress : AddressLike → Except String Nat
  | AddressLike.str s =>
      match intBase16 s with
      | some n => Except.ok (n % 2 ^ 256)
      | none => Except.error "invalid literal for int() with base 16"
  | AddressLike.int n => Except.ok (n % 2 ^ 256)
  | AddressLike.bitvec v => Except.ok v

/-- The creator actor account: `Account(hex(ACTORS.creator.value), "",
dynamic_loader=None, contract_name=None)`. -/
def creator_account : Account :=
  { address := CREATOR_ADDRESS, code := "", dynamic_loader := none,
    contract_name := none, concrete_storage := false }

/-- The attacker actor account: `Account(hex(ACTORS.attacker.value), "",
dynamic_loader=None, contract_name=None)`. -/
def attacker_account : Account :=
  { address := ATTACKER_ADDRESS, code := "", dynamic_loader := none,
    contract_name := none, concrete_storage := false }

/-- The account-bootstrapping step of `__init__` (lines 109-115): the
`self.accounts` mapping in insertion order, keyed by address. -/
def bootstrapAccounts (creation_code : String) : List (Nat × Account) :=
  if creation_code = "" then
    [(ATTACKER_ADDRESS, attacker_account)]
  else
    [(CREATOR_ADDRESS, creator_account), (ATTACKER_ADDRESS, attacker_account)]

/-- The two hook phases of the module loader consulted by this core. -/
inductive EntryPoint where
  | POST
  | CALLBACK
deriving DecidableEq, Repr

/-- The external collaborators' outputs for one run: the module loader's
answer per hook phase and module filter, and the node mapping (in iteration
order) and edge set the engine's `sym_exec` leaves behind. -/
structure Env where
  get_detection_modules : EntryPoint → Option (List String) → List String
  laser_nodes : List Node
  laser_edges : List Edge

/-- The dispatch performed by the orchestrator: a creation-transaction
session or a direct-entry session against a target address. -/
inductive SymExecCall where
  | creation (creation_code : String) (contract_name : String)
  | direct (target_address : Nat)
deriving DecidableEq, Repr

/-- The arguments handed to the `LaserEVM` session constructor. -/
structure LaserConfig where
  dynamic_loader : Option DynLoader
  max_depth : Nat
  execution_timeout : Option Nat
  strategy : Strategy
  create_timeout : Option Nat
  transaction_count : Nat
  requires_statespace : Bool
  iprof : Option Nat
  enable_coverage_strategy : Bool
deriving DecidableEq, Repr

/-- One observable construction step of the orchestrator, in program order;
the trace of these records which engine-facing state exists by the time a
failure (if any) occurs. -/
inductive Effect where
  | builtAccount (addr : Nat)
  | builtCoveragePlugin
  | builtLaserEVM
  | extendedStrategy (bound : Nat)
  | loadedPlugin (name : String)
  | builtWorldState
  | putAccount (addr : Nat)
  | registeredHooks (phase : String)
  | ranSymExec (call : SymExecCall)
deriving DecidableEq, Repr

/-- The fields of the wrapper observable after `__init__` returns; the three
graph-dependent fields are `none` when graph retention was not required (the
early `return` leaves them unset). -/
structure InitResult where
  accounts : List (Nat × Account)
  requires_statespace : Bool
  laser : LaserConfig
  world_state : List Account
  sym_exec_call : SymExecCall
  nodes : Option (List Node)
  edges : Option (List Edge)
  calls : Option (List Call)
deriving Repr

/-- The outcome of running `__init__`: the construction trace together with
either the resulting wrapper fields or the raised error. -/
structure InitOutcome where
  effects : List Effect
  result : Except String InitResult
deriving Repr

/-- The `concrete_storage` argument of the deployed account:
`True if (dynloader is not None and dynloader.storage_loading) else False`. -/
def concreteStorageFlag : Option DynLoader → Bool
  | some dl => dl.storage_loading
  | none => false

/-- The whole of `SymExecWrapper.__init__`, in source order: address
normalization, strategy dispatch, actor-account construction, the
graph-retention decision, engine/plugin assembly, hook registration, run
dispatch, and — when retention is required — capture of nodes/edges and the
call-site extraction pass. -/
def symExecWrapperInit (env : Env) (contract : Contract) (address : AddressLike)
    (strategy : String) (dynloader : Option DynLoader) (max_depth : Nat)
    (execution_timeout : Option Nat) (loop_bound : Option Nat)
    (create_timeout : Option Nat) (transaction_count : Nat)
    (modules : Option (List String)) (compulsory_statespace : Bool)
    (iprof : Option Nat) (disable_dependency_pruning : Bool)
    (run_analysis_modules : Bool) (enable_coverage_strategy : Bool) : InitOutcome :=
  match normalizeAddress address with
  | Except.error e => { effects := [], result := Except.error e }
  | Except.ok addr =>
    match selectStrategy strategy with
    | Except.error e => { effects := [], result := Except.error e }
    | Except.ok s_strategy =>
      let effects0 : List Effect :=
        [Effect.builtAccount CREATOR_ADDRESS, Effect.builtAccount ATTACKER_ADDRESS]
      let requires_statespace : Bool :=
        compulsory_statespace ||
          decide (0 < (env.get_detection_modules EntryPoint.POST modules).length)
      let accounts := bootstrapAccounts contract.creation_code
      let laser : LaserConfig :=
        { dynamic_loader := dynloader, max_depth := max_depth,
          execution_timeout := execution_timeout, strategy := s_strategy,
          create_timeout := create_timeout, transaction_count := transaction_count,
          requires_statespace := requires_statespace, iprof := iprof,
          enable_coverage_strategy := enable_coverage_strategy }
      let effects1 := effects0 ++ [Effect.builtCoveragePlugin, Effect.builtLaserEVM]
      let effects2 := effects1 ++
        (match loop_bound with
         | some b => [Effect.extendedStrategy b]
         | none => [])
      let effects3 := effects2 ++
        [Effect.loadedPlugin "mutation_pruner", Effect.loadedPlugin "instruction_coverage"] ++
        (if disable_dependency_pruning then [] else [Effect.loadedPlugin "dependency_pruner"])
      let world_state := accounts.map Prod.snd
      let effects4 := effects3 ++ [Effect.builtWorldState] ++
        world_state.map (fun a => Effect.putAccount a.address)
      let effects5 := effects4 ++
        (if run_analysis_modules then
          [Effect.registeredHooks "pre", Effect.registeredHooks "post"]
         else [])
      let dispatch : SymExecCall × List Account × List Effect :=
        if contract.kind = ContractKind.solidity then
          (SymExecCall.creation contract.creation_code contract.name, world_state, [])
        else if contract.kind = ContractKind.evm ∧ contract.creation_code ≠ "" then
          (SymExecCall.creation contract.creation_code contract.name, world_state, [])
        else
          let account : Account :=
            { address := addr, code := contract.disassembly, dynamic_loader := dynloader,
              contract_name := some contract.name,
              concrete_storage := concreteStorageFlag dynloader }
          (SymExecCall.direct addr, world_state ++ [account], [Effect.putAccount addr])
      let effects6 := effects5 ++ dispatch.2.2 ++ [Effect.ranSymExec dispatch.1]
      if requires_statespace = false then
        { effects := effects6,
          result := Except.ok
            { accounts := accounts, requires_statespace := requires_statespace,
              laser := laser, world_state := dispatch.2.1, sym_exec_call := dispatch.1,
              nodes := none, edges := none, calls := none } }
      else
        match extractCalls env.laser_nodes with
        | Except.error e => { effects := effects6, result := Except.error e }
        | Except.ok cs =>
            { effects := effects6,
              result := Except.ok
                { accounts := accounts, requires_statespace := requires_statespace,
                  laser := laser, world_state := dispatch.2.1, sym_exec_call := dispatch.1,
                  nodes := some env.laser_nodes, edges := some env.laser_edges,
                  calls := some cs } }

/-- A seven-entry operand stack for call-family fixture states, listed
bottom-to-top: output-size 7, output-offset 8, input-size 4, input-offset 0,
transferred value 0, then the given target and gas (the two topmost). -/
def fixtureStack (target gas : Value) : List Value :=
  [Value.concrete 7, Value.concrete 8, Value.concrete 4, Value.concrete 0,
   Value.concrete 0, target, gas]

/-- Four memory bytes shared by the fixture states. -/
def fixtureMemory : List Nat := [170, 187, 204, 221]

/-- A fixture state executing the given opcode over `fixtureStack`. -/
def fixtureState (op : String) (target gas : Value) : GlobalState :=
  { mstate := { stack := fixtureStack target gas, memory := fixtureMemory },
    instruction := { opcode := op } }

/-- A `CALL` whose concrete target 3 lies inside the precompile range. -/
def filteredCallState : GlobalState :=
  fixtureState "CALL" (Value.concrete 3) (Value.concrete 100)

/-- A `CALL` to the ordinary concrete address `0xdead`. -/
def recordedCallState : GlobalState :=
  fixtureState "CALL" (Value.concrete 0xdead) (Value.concrete 50)

/-- A `CALLCODE` to the ordinary concrete address `0xdead`. -/
def callcodeState : GlobalState :=
  fixtureState "CALLCODE" (Value.concrete 0xdead) (Value.concrete 21)

/-- A `STATICCALL` whose concrete target 5 lies inside the precompile
range. -/
def staticState : GlobalState :=
  fixtureState "STATICCALL" (Value.concrete 5) (Value.concrete 9)

/-- A `CALL` whose target operand is symbolic. -/
def symbolicCallState : GlobalState :=
  fixtureState "CALL" (Value.symbolic 0) (Value.concrete 11)

/-- A node whose first state is precompile-filtered and whose second is
recorded: the extraction pass leaves the state-index counter at 0 for the
second state. -/
def bugNode : Node := { uid := 0, states := [filteredCallState, recordedCallState] }

/-- The single record the extraction pass produces for `bugNode`: it belongs
to the state at ordinal position 1 within the node but carries
`state_index = 0`. -/
def bugRecord : Call :=
  { node := bugNode, state := recordedCallState, state_index := 0, op := "CALL",
    «to» := Value.concrete 0xdead, gas := Value.concrete 50,
    value := some (Value.concrete 0), data := some [170, 187, 204, 221] }

/-- A `CALL` state with an empty operand stack. -/
def emptyStackCallState : GlobalState :=
  { mstate := { stack := [], memory := [] }, instruction := { opcode := "CALL" } }

/-- A node holding only the empty-stack `CALL` state. -/
def nodeUnderflow : Node := { uid := 1, states := [emptyStackCallState] }

/-- An environment with no registered detection modules, whose engine run
leaves behind only `nodeUnderflow` (a graph on which the extraction pass
would fail if it ran). -/
def envNoMods : Env :=
  { get_detection_modules := fun _ _ => [], laser_nodes := [nodeUnderflow],
    laser_edges := [] }

/-- A bytecode-level contract without creation code. -/
def contractDirect : Contract :=
  { kind := ContractKind.evm, name := "Demo", creation_code := "", disassembly := "6000" }

/-- A dynamic loader with storage loading enabled. -/
def loaderOn : DynLoader := { storage_loading := true }

/-- The wrapper fields produced for `contractDirect` under `envNoMods` with
`strategy = "bfs"`, `compulsory_statespace = false` and no dynamic loader. -/
def resultDirect : InitResult :=
  { accounts := bootstrapAccounts contractDirect.creation_code,
    requires_statespace := false,
    laser :=
      { dynamic_loader := none, max_depth := 22, execution_timeout := none,
        strategy := Strategy.BreadthFirstSearchStrategy, create_timeout := none,
        transaction_count := 2, requires_statespace := false, iprof := none,
        enable_coverage_strategy := false },
    world_state := (bootstrapAccounts contractDirect.creation_code).map Prod.snd ++
      [{ address := 57005, code := contractDirect.disassembly, dynamic_loader := none,
         contract_name := some contractDirect.name,
         concrete_storage := concreteStorageFlag none }],
    sym_exec_call := SymExecCall.direct 57005,
    nodes := none, edges := none, calls := none }

/-- The wrapper fields produced for `contractDirect` under `envNoMods` with
`strategy = "dfs"`, `compulsory_statespace = false` and the storage-loading
dynamic loader. -/
def resultDispatch : InitResult :=
  { accounts := bootstrapAccounts contractDirect.creation_code,
    requires_statespace := false,
    laser :=
      { dynamic_loader := some loaderOn, max_depth := 22, execution_timeout := none,
        strategy := Strategy.DepthFirstSearchStrategy, create_timeout := none,
        transaction_count := 2, requires_statespace := false, iprof := none,
        enable_coverage_strategy := false },
    world_state := (bootstrapAccounts contractDirect.creation_code).map Prod.snd ++
      [{ address := 57005, code := contractDirect.disassembly,
         dynamic_loader := some loaderOn,
         contract_name := some contractDirect.name,
         concrete_storage := concreteStorageFlag (some loaderOn) }],
    sym_exec_call := SymExecCall.direct 57005,
    nodes := none, edges := none, calls := none }

theorem stackNeg_eq_none (stack : List Value) (n : Nat) (h : stack.length < n) :
    stackNeg stack n = none := by
  unfold stackNeg
  apply List.getElem?_eq_none_iff.mpr
  simp only [List.length_reverse]
  omega

theorem stackNeg_isSome (stack : List Value) (n : Nat) (h1 : 1 ≤ n)
    (h2 : n ≤ stack.length) : ∃ v, stackNeg stack n = some v := by
  unfold stackNeg
  have h : n - 1 < stack.reverse.length := by
    simp only [List.length_reverse]
    omega
  exact ⟨_, List.getElem?_eq_getElem h⟩

theorem pySlice_getElem? (l : List Nat) (a b k : Nat) :
    (pySlice l a b)[k]? = if k < b - a then l[a + k]? else none := by
  unfold pySlice
  rw [List.getElem?_take, List.getElem?_drop]

/-- C1: for every `CALL`/`CALLCODE` occurrence whose decoded target operand is
concrete with value `t` satisfying `0 < t ≤ PRECOMPILE_COUNT`, the extraction
step emits no Call Record: the occurrence is discarded entirely (and, via the
`continue`, the state-index counter is not advanced). -/
theorem precompile_call_not_recorded
    (nd : Node) (s : GlobalState) (i t : Nat)
    (gas value mi ms mo1 mo2 : Value)
    (hop : s.get_current_instruction.opcode = "CALL" ∨
           s.get_current_instruction.opcode = "CALLCODE")
    (h1 : stackNeg s.mstate.stack 1 = some gas)
    (h2 : stackNeg s.mstate.stack 2 = some (Value.concrete t))
    (h3 : stackNeg s.mstate.stack 3 = some value)
    (h4 : stackNeg s.mstate.stack 4 = some mi)
    (h5 : stackNeg s.mstate.stack 5 = some ms)
    (h6 : stackNeg s.mstate.stack 6 = some mo1)
    (h7 : stackNeg s.mstate.stack 7 = some mo2)
    (ht0 : 0 < t) (htP : t ≤ PRECOMPILE_COUNT) :
    stateStep nd s i = Except.ok ([], false) := by
  rcases hop with hop | hop <;>
    simp [stateStep, hop, h1, h2, h3, h4, h5, h6, h7, precompileFiltered, ht0, htP]

/-- C2: for a `CALL`/`CALLCODE` occurrence that is not precompile-filtered,
if both the input-offset and input-size operands are concrete (`o`, `sz`) the
emitted record's data field is exactly the state's memory bytes in the
half-open range `[o, o + sz)` (element `k` of the data is memory element
`o + k`, for `k < sz`, and nothing else); if either operand is symbolic the
data field is absent while the record still carries the opcode, target, gas
and value operands. -/
theorem call_data_materialization
    (nd : Node) (s : GlobalState) (i : Nat)
    (gas a value mi ms mo1 mo2 : Value)
    (hop : s.get_current_instruction.opcode = "CALL" ∨
           s.get_current_instruction.opcode = "CALLCODE")
    (h1 : stackNeg s.mstate.stack 1 = some gas)
    (h2 : stackNeg s.mstate.stack 2 = some a)
    (h3 : stackNeg s.mstate.stack 3 = some value)
    (h4 : stackNeg s.mstate.stack 4 = some mi)
    (h5 : stackNeg s.mstate.stack 5 = some ms)
    (h6 : stackNeg s.mstate.stack 6 = some mo1)
    (h7 : stackNeg s.mstate.stack 7 = some mo2)
    (hnp : precompileFiltered a = false) :
    (∀ o sz, mi = Value.concrete o → ms = Value.concrete sz →
       stateStep nd s i = Except.ok
         ([{ node := nd, state := s, state_index := i,
             op := s.get_current_instruction.opcode, «to» := a, gas := gas,
             value := some value,
             data := some (pySlice s.mstate.memory o (sz + o)) }], true) ∧
       ∀ k, (pySlice s.mstate.memory o (sz + o))[k]? =
         if k < sz then s.mstate.memory[o + k]? else none) ∧
    (((∃ e, mi = Value.symbolic e) ∨ (∃ e, ms = Value.symbolic e)) →
       stateStep nd s i = Except.ok
         ([{ node := nd, state := s, state_index := i,
             op := s.get_current_instruction.opcode, «to» := a, gas := gas,
             value := some value, data := none }], true)) := by
  constructor
  · intro o sz hmi hms
    subst hmi
    subst hms
    constructor
    · rcases hop with hop | hop <;>
        simp [stateStep, hop, h1, h2, h3, h4, h5, h6, h7, hnp]
    · intro k
      rw [pySlice_getElem?]
      have hsz : sz + o - o = sz := by omega
      rw [hsz]
  · rintro (⟨e, hmi⟩ | ⟨e, hms⟩)
    · subst hmi
      rcases hop with hop | hop <;> cases ms <;>
        simp [stateStep, hop, h1, h2, h3, h4, h5, h6, h7, hnp]
    · subst hms
      rcases hop with hop | hop <;> cases mi <;>
        simp [stateStep, hop, h1, h2, h3, h4, h5, h6, h7, hnp]

/-- C3: every `DELEGATECALL`/`STATICCALL` occurrence (with its six operands
on the stack) yields exactly one record carrying the opcode, target and gas
only — no value field, no data field — and no precompile filtering is
applied: the target operand `a` is arbitrary, including a concrete precompile
address. -/
theorem delegate_static_record_shape
    (nd : Node) (s : GlobalState) (i : Nat)
    (gas a mi ms mo1 mo2 : Value)
    (hop : s.get_current_instruction.opcode = "DELEGATECALL" ∨
           s.get_current_instruction.opcode = "STATICCALL")
    (h1 : stackNeg s.mstate.stack 1 = some gas)
    (h2 : stackNeg s.mstate.stack 2 = some a)
    (h3 : stackNeg s.mstate.stack 3 = some mi)
    (h4 : stackNeg s.mstate.stack 4 = some ms)
    (h5 : stackNeg s.mstate.stack 5 = some mo1)
    (h6 : stackNeg s.mstate.stack 6 = some mo2) :
    stateStep nd s i = Except.ok
      ([{ node := nd, state := s, state_index := i,
          op := s.get_current_instruction.opcode, «to» := a, gas := gas,
          value := none, data := none }], true) := by
  rcases hop with hop | hop <;>
    simp [stateStep, hop, h1, h2, h3, h4, h5, h6]

theorem stateStep_call_emit
    (nd : Node) (s : GlobalState) (i : Nat)
    (gas a value mi ms mo1 mo2 : Value)
    (hop : s.get_current_instruction.opcode = "CALL" ∨
           s.get_current_instruction.opcode = "CALLCODE")
    (h1 : stackNeg s.mstate.stack 1 = some gas)
    (h2 : stackNeg s.mstate.stack 2 = some a)
    (h3 : stackNeg s.mstate.stack 3 = some value)
    (h4 : stackNeg s.mstate.stack 4 = some mi)
    (h5 : stackNeg s.mstate.stack 5 = some ms)
    (h6 : stackNeg s.mstate.stack 6 = some mo1)
    (h7 : stackNeg s.mstate.stack 7 = some mo2)
    (hnp : precompileFiltered a = false) :
    stateStep nd s i = Except.ok
      ([{ node := nd, state := s, state_index := i,
          op := s.get_current_instruction.opcode, «to» := a, gas := gas,
          value := some value,
          data := callDataOf mi ms s.mstate.memory }], true) := by
  rcases hop with hop | hop <;> cases mi <;> cases ms <;>
    simp [stateStep, callDataOf, hop, h1, h2, h3, h4, h5, h6, h7, hnp]

/-- C10: the precompile discard never applies to a `CALL`/`CALLCODE`
occurrence whose target operand is symbolic, nor to a concrete target equal
to zero or strictly greater than `PRECOMPILE_COUNT`: in all these cases a
Call Record is emitted for the occurrence. -/
theorem nonprecompile_target_always_recorded
    (nd : Node) (s : GlobalState) (i : Nat)
    (gas a value mi ms mo1 mo2 : Value)
    (hop : s.get_current_instruction.opcode = "CALL" ∨
           s.get_current_instruction.opcode = "CALLCODE")
    (h1 : stackNeg s.mstate.stack 1 = some gas)
    (h2 : stackNeg s.mstate.stack 2 = some a)
    (h3 : stackNeg s.mstate.stack 3 = some value)
    (h4 : stackNeg s.mstate.stack 4 = some mi)
    (h5 : stackNeg s.mstate.stack 5 = some ms)
    (h6 : stackNeg s.mstate.stack 6 = some mo1)
    (h7 : stackNeg s.mstate.stack 7 = some mo2)
    (hcase : (∃ e, a = Value.symbolic e) ∨
             (∃ t, a = Value.concrete t ∧ (t = 0 ∨ PRECOMPILE_COUNT < t))) :
    ∃ c, stateStep nd s i = Except.ok ([c], true) ∧
      c.«to» = a ∧ c.op = s.get_current_instruction.opcode := by
  have hnp : precompileFiltered a = false := by
    rcases hcase with ⟨e, rfl⟩ | ⟨t, rfl, ht | ht⟩
    · rfl
    · simp [precompileFiltered, ht]
    · simp [precompileFiltered]
      omega
  have hemit := stateStep_call_emit nd s i gas a value mi ms mo1 mo2 hop
    h1 h2 h3 h4 h5 h6 h7 hnp
  exact ⟨_, hemit, rfl, rfl⟩

/-- C9: the extraction step unconditionally reads the topmost 7 stack
entries of a `CALL`/`CALLCODE` state and the topmost 6 of a
`DELEGATECALL`/`STATICCALL` state: a call-family state whose stack is
shorter makes the step — and with it the whole extraction pass, which
propagates the error instead of skipping the occurrence — fail with the
out-of-range indexing error, while any call-family state with at least its
variant's operand count is processed without error. -/
theorem call_stack_arity_requirement :
    (∀ (nd : Node) (s : GlobalState) (i : Nat),
       (s.get_current_instruction.opcode = "CALL" ∨
        s.get_current_instruction.opcode = "CALLCODE") →
       s.mstate.stack.length < 7 →
       stateStep nd s i = Except.error "IndexError") ∧
    (∀ (nd : Node) (s : GlobalState) (i : Nat),
       (s.get_current_instruction.opcode = "DELEGATECALL" ∨
        s.get_current_instruction.opcode = "STATICCALL") →
       s.mstate.stack.length < 6 →
       stateStep nd s i = Except.error "IndexError") ∧
    (∀ (nd : Node) (s : GlobalState) (i : Nat) (rest : List GlobalState),
       stateStep nd s i = Except.error "IndexError" →
       extractStates nd (s :: rest) i = Except.error "IndexError") ∧
    (∀ (nd : Node) (s : GlobalState) (i : Nat),
       (s.get_current_instruction.opcode = "CALL" ∨
        s.get_current_instruction.opcode = "CALLCODE") →
       7 ≤ s.mstate.stack.length →
       ∃ out, stateStep nd s i = Except.ok out) ∧
    (∀ (nd : Node) (s : GlobalState) (i : Nat),
       (s.get_current_instruction.opcode = "DELEGATECALL" ∨
        s.get_current_instruction.opcode = "STATICCALL") →
       6 ≤ s.mstate.stack.length →
       ∃ out, stateStep nd s i = Except.ok out) := by
  refine ⟨?_, ?_, ?_, ?_, ?_⟩
  · intro nd s i hop hlen
    have h7 : stackNeg s.mstate.stack 7 = none := stackNeg_eq_none _ _ hlen
    rcases hop with hop | hop <;>
      rcases e1 : stackNeg s.mstate.stack 1 with _ | v1 <;>
      rcases e2 : stackNeg s.mstate.stack 2 with _ | v2 <;>
      rcases e3 : stackNeg s.mstate.stack 3 with _ | v3 <;>
      rcases e4 : stackNeg s.mstate.stack 4 with _ | v4 <;>
      rcases e5 : stackNeg s.mstate.stack 5 with _ | v5 <;>
      rcases e6 : stackNeg s.mstate.stack 6 with _ | v6 <;>
      simp [stateStep, hop, e1, e2, e3, e4, e5, e6, h7]
  · intro nd s i hop hlen
    have h6 : stackNeg s.mstate.stack 6 = none := stackNeg_eq_none _ _ hlen
    rcases hop with hop | hop <;>
      rcases e1 : stackNeg s.mstate.stack 1 with _ | v1 <;>
      rcases e2 : stackNeg s.mstate.stack 2 with _ | v2 <;>
      rcases e3 : stackNeg s.mstate.stack 3 with _ | v3 <;>
      rcases e4 : stackNeg s.mstate.stack 4 with _ | v4 <;>
      rcases e5 : stackNeg s.mstate.stack 5 with _ | v5 <;>
      simp [stateStep, hop, e1, e2, e3, e4, e5, h6]
  · intro nd s i rest herr
    simp [extractStates, herr]
  · intro nd s i hop hlen
    obtain ⟨v1, e1⟩ := stackNeg_isSome s.mstate.stack 1 (by omega) (by omega)
    obtain ⟨v2, e2⟩ := stackNeg_isSome s.mstate.stack 2 (by omega) (by omega)
    obtain ⟨v3, e3⟩ := stackNeg_isSome s.mstate.stack 3 (by omega) (by omega)
    obtain ⟨v4, e4⟩ := stackNeg_isSome s.mstate.stack 4 (by omega) (by omega)
    obtain ⟨v5, e5⟩ := stackNeg_isSome s.mstate.stack 5 (by omega) (by omega)
    obtain ⟨v6, e6⟩ := stackNeg_isSome s.mstate.stack 6 (by omega) (by omega)
    obtain ⟨v7, e7⟩ := stackNeg_isSome s.mstate.stack 7 (by omega) (by omega)
    rcases hop with hop | hop <;>
      rcases hf : precompileFiltered v2 <;> cases v4 <;> cases v5 <;>
      simp [stateStep, hop, e1, e2, e3, e4, e5, e6, e7, hf]
  · intro nd s i hop hlen
    obtain ⟨v1, e1⟩ := stackNeg_isSome s.mstate.stack 1 (by omega) (by omega)
    obtain ⟨v2, e2⟩ := stackNeg_isSome s.mstate.stack 2 (by omega) (by omega)
    obtain ⟨v3, e3⟩ := stackNeg_isSome s.mstate.stack 3 (by omega) (by omega)
    obtain ⟨v4, e4⟩ := stackNeg_isSome s.mstate.stack 4 (by omega) (by omega)
    obtain ⟨v5, e5⟩ := stackNeg_isSome s.mstate.stack 5 (by omega) (by omega)
    obtain ⟨v6, e6⟩ := stackNeg_isSome s.mstate.stack 6 (by omega) (by omega)
    rcases hop with hop | hop <;>
      simp [stateStep, hop, e1, e2, e3, e4, e5, e6]

/-- C5: each of the four recognized strategy names maps deterministically to
its distinct traversal-policy type; any other name raises the
invalid-strategy error, and in the orchestrator this failure occurs before
any orchestration state is constructed: the outcome carries an empty
construction trace (no accounts, no engine session, no plugins, no world
state) together with the error. -/
theorem strategy_selection_spec :
    (selectStrategy "dfs" = Except.ok Strategy.DepthFirstSearchStrategy ∧
     selectStrategy "bfs" = Except.ok Strategy.BreadthFirstSearchStrategy ∧
     selectStrategy "naive-random" = Except.ok Strategy.ReturnRandomNaivelyStrategy ∧
     selectStrategy "weighted-random" = Except.ok Strategy.ReturnWeightedRandomStrategy ∧
     ([Strategy.DepthFirstSearchStrategy, Strategy.BreadthFirstSearchStrategy,
       Strategy.ReturnRandomNaivelyStrategy,
       Strategy.ReturnWeightedRandomStrategy] : List Strategy).Nodup) ∧
    (∀ s, s ≠ "dfs" → s ≠ "bfs" → s ≠ "naive-random" → s ≠ "weighted-random" →
       selectStrategy s = Except.error "Invalid strategy argument supplied" ∧
       ∀ (env : Env) (contract : Contract) (address : AddressLike)
         (dynloader : Option DynLoader) (max_depth : Nat)
         (execution_timeout loop_bound create_timeout : Option Nat)
         (transaction_count : Nat) (modules : Option (List String))
         (compulsory_statespace : Bool) (iprof : Option Nat)
         (disable_dependency_pruning run_analysis_modules enable_coverage_strategy : Bool)
         (v : Nat), normalizeAddress address = Except.ok v →
         symExecWrapperInit env contract address s dynloader max_depth
           execution_timeout loop_bound create_timeout transaction_count modules
           compulsory_statespace iprof disable_dependency_pruning
           run_analysis_modules enable_coverage_strategy =
         { effects := [], result := Except.error "Invalid strategy argument supplied" }) := by
  refine ⟨⟨rfl, rfl, rfl, rfl, by decide⟩, ?_⟩
  intro s h1 h2 h3 h4
  have hsel : selectStrategy s = Except.error "Invalid strategy argument supplied" := by
    simp [selectStrategy, h1, h2, h3, h4]
  refine ⟨hsel, ?_⟩
  intro env contract address dynloader md et lb ct tc mods cs ip ddp ram ecs v hv
  simp [symExecWrapperInit, hv, hsel]

/-- C4: the orchestrator retains the execution graph if and only if the
caller forces retention or at least one post-phase analysis module is
registered for the selected module set; when neither condition holds the run
completes with the graph-dependent fields (`nodes`, `edges`, `calls`) absent
and the call-site extraction pass is not performed (in particular the run
cannot fail on a malformed graph). -/
theorem graph_retention_iff
    (env : Env) (contract : Contract) (address : AddressLike) (strategy : String)
    (dynloader : Option DynLoader) (max_depth : Nat)
    (execution_timeout loop_bound create_timeout : Option Nat)
    (transaction_count : Nat) (modules : Option (List String))
    (compulsory_statespace : Bool) (iprof : Option Nat)
    (disable_dependency_pruning run_analysis_modules enable_coverage_strategy : Bool)
    (addr : Nat) (st : Strategy)
    (hA : normalizeAddress address = Except.ok addr)
    (hS : selectStrategy strategy = Except.ok st) :
    (∀ r, (symExecWrapperInit env contract address strategy dynloader max_depth
        execution_timeout loop_bound create_timeout transaction_count modules
        compulsory_statespace iprof disable_dependency_pruning run_analysis_modules
        enable_coverage_strategy).result = Except.ok r →
      r.requires_statespace = (compulsory_statespace ||
        decide (0 < (env.get_detection_modules EntryPoint.POST modules).length)) ∧
      (r.nodes.isSome ↔ r.requires_statespace = true) ∧
      (r.edges.isSome ↔ r.requires_statespace = true) ∧
      (r.calls.isSome ↔ r.requires_statespace = true)) ∧
    (compulsory_statespace = false →
      env.get_detection_modules EntryPoint.POST modules = [] →
      ∃ r, (symExecWrapperInit env contract address strategy dynloader max_depth
        execution_timeout loop_bound create_timeout transaction_count modules
        compulsory_statespace iprof disable_dependency_pruning run_analysis_modules
        enable_coverage_strategy).result = Except.ok r ∧
        r.requires_statespace = false ∧
        r.nodes = none ∧ r.edges = none ∧ r.calls = none) := by
  constructor
  · intro r hr
    simp only [symExecWrapperInit, hA, hS] at hr
    cases hb : (compulsory_statespace ||
        decide (0 < (env.get_detection_modules EntryPoint.POST modules).length)) with
    | false =>
        simp [hb] at hr
        subst hr
        simp [hb]
    | true =>
        simp [hb] at hr
        rcases he : extractCalls env.laser_nodes with e | cs <;> simp [he] at hr
        subst hr
        simp [hb]
  · intro hc hm
    have hb : (compulsory_statespace ||
        decide (0 < (env.get_detection_modules EntryPoint.POST modules).length)) = false := by
      simp [hc, hm]
    simp [symExecWrapperInit, hA, hS, hb]

/-- C6: account bootstrapping produces exactly one account — the attacker
actor at its fixed well-known address with empty bytecode and no dynamic
loader — when the contract has no creation bytecode, and exactly two —
creator actor then attacker actor at their fixed well-known addresses, both
with empty bytecode — when it has; the orchestrator's account mapping is
exactly this bootstrap result. -/
theorem account_bootstrap_spec :
    (bootstrapAccounts "" = [(ATTACKER_ADDRESS,
       { address := ATTACKER_ADDRESS, code := "", dynamic_loader := none,
         contract_name := none, concrete_storage := false })]) ∧
    (∀ cc, cc ≠ "" → bootstrapAccounts cc =
       [(CREATOR_ADDRESS,
         { address := CREATOR_ADDRESS, code := "", dynamic_loader := none,
           contract_name := none, concrete_storage := false }),
        (ATTACKER_ADDRESS,
         { address := ATTACKER_ADDRESS, code := "", dynamic_loader := none,
           contract_name := none, concrete_storage := false })]) ∧
    (∀ (env : Env) (contract : Contract) (address : AddressLike) (strategy : String)
       (dynloader : Option DynLoader) (max_depth : Nat)
       (execution_timeout loop_bound create_timeout : Option Nat)
       (transaction_count : Nat) (modules : Option (List String))
       (compulsory_statespace : Bool) (iprof : Option Nat)
       (disable_dependency_pruning run_analysis_modules enable_coverage_strategy : Bool)
       (addr : Nat) (st : Strategy) (r : InitResult),
       normalizeAddress address = Except.ok addr →
       selectStrategy strategy = Except.ok st →
       (symExecWrapperInit env contract address strategy dynloader max_depth
          execution_timeout loop_bound create_timeout transaction_count modules
          compulsory_statespace iprof disable_dependency_pruning run_analysis_modules
          enable_coverage_strategy).result = Except.ok r →
       r.accounts = bootstrapAccounts contract.creation_code) := by
  refine ⟨rfl, ?_, ?_⟩
  · intro cc hcc
    simp [bootstrapAccounts, hcc, creator_account, attacker_account]
  · intro env contract address strategy dynloader md et lb ct tc mods cs ip ddp ram ecs
      addr st r hA hS hr
    simp only [symExecWrapperInit, hA, hS] at hr
    cases hb : (cs || decide (0 < (env.get_detection_modules EntryPoint.POST mods).length)) with
    | false =>
        simp [hb] at hr
        subst hr
        rfl
    | true =>
        simp [hb] at hr
        rcases he : extractCalls env.laser_nodes with e | cls <;> simp [he] at hr
        subst hr
        rfl

/-- C8: run dispatch — a fully compiled source-level contract, or a
bytecode-level contract carrying creation code, leads to a
creation-transaction session; otherwise a single account for the deployed
bytecode is built at the normalized target address, with concrete storage
enabled exactly when a dynamic loader is supplied whose storage loading is
enabled, inserted into the world state, and a direct-entry session is run
against that address. -/
theorem run_dispatch_spec
    (env : Env) (contract : Contract) (address : AddressLike) (strategy : String)
    (dynloader : Option DynLoader) (max_depth : Nat)
    (execution_timeout loop_bound create_timeout : Option Nat)
    (transaction_count : Nat) (modules : Option (List String))
    (compulsory_statespace : Bool) (iprof : Option Nat)
    (disable_dependency_pruning run_analysis_modules enable_coverage_strategy : Bool)
    (addr : Nat) (st : Strategy) (r : InitResult)
    (hA : normalizeAddress address = Except.ok addr)
    (hS : selectStrategy strategy = Except.ok st)
    (hr : (symExecWrapperInit env contract address strategy dynloader max_depth
        execution_timeout loop_bound create_timeout transaction_count modules
        compulsory_statespace iprof disable_dependency_pruning run_analysis_modules
        enable_coverage_strategy).result = Except.ok r) :
    ((contract.kind = ContractKind.solidity ∨
      (contract.kind = ContractKind.evm ∧ contract.creation_code ≠ "")) →
       r.sym_exec_call = SymExecCall.creation contract.creation_code contract.name ∧
       r.world_state = (bootstrapAccounts contract.creation_code).map Prod.snd) ∧
    ((contract.kind = ContractKind.evm ∧ contract.creation_code = "") →
       r.sym_exec_call = SymExecCall.direct addr ∧
       r.world_state = (bootstrapAccounts contract.creation_code).map Prod.snd ++
         [{ address := addr, code := contract.disassembly, dynamic_loader := dynloader,
            contract_name := some contract.name,
            concrete_storage := concreteStorageFlag dynloader }]) := by
  simp only [symExecWrapperInit, hA, hS] at hr
  have hshape : r.sym_exec_call =
      (if contract.kind = ContractKind.solidity then
         SymExecCall.creation contract.creation_code contract.name
       else if contract.kind = ContractKind.evm ∧ contract.creation_code ≠ "" then
         SymExecCall.creation contract.creation_code contract.name
       else SymExecCall.direct addr) ∧
      r.world_state =
      (if contract.kind = ContractKind.solidity then
         (bootstrapAccounts contract.creation_code).map Prod.snd
       else if contract.kind = ContractKind.evm ∧ contract.creation_code ≠ "" then
         (bootstrapAccounts contract.creation_code).map Prod.snd
       else (bootstrapAccounts contract.creation_code).map Prod.snd ++
         [{ address := addr, code := contract.disassembly, dynamic_loader := dynloader,
            contract_name := some contract.name,
            concrete_storage := concreteStorageFlag dynloader }]) := by
    cases hb : (compulsory_statespace ||
        decide (0 < (env.get_detection_modules EntryPoint.POST modules).length)) with
    | false =>
        simp [hb] at hr
        subst hr
        by_cases hk : contract.kind = ContractKind.solidity
        · simp [hk]
        · by_cases hc2 : contract.kind = ContractKind.evm ∧ contract.creation_code ≠ ""
          · simp [hk, hc2]
          · simp [hk, hc2]
    | true =>
        simp [hb] at hr
        rcases he : extractCalls env.laser_nodes with e | cls <;> simp [he] at hr
        subst hr
        by_cases hk : contract.kind = ContractKind.solidity
        · simp [hk]
        · by_cases hc2 : contract.kind = ContractKind.evm ∧ contract.creation_code ≠ ""
          · simp [hk, hc2]
          · simp [hk, hc2]
  rcases hshape with ⟨hcall, hws⟩
  constructor
  · rintro (hk | ⟨hk, hcc⟩)
    · constructor
      · rw [hcall]
        simp [hk]
      · rw [hws]
        simp [hk]
    · constructor
      · rw [hcall, hk]
        simp [hcc]
      · rw [hws, hk]
        simp [hcc]
  · rintro ⟨hk, hcc⟩
    refine ⟨?_, ?_⟩
    · rw [hcall, hk]
      simp [hcc]
    · rw [hws, hk]
      simp [hcc]

/-- C7: on `bugNode` — a precompile-filtered `CALL` followed by a recorded
`CALL` — the extraction pass emits exactly one record, and that record
carries `state_index = 0` although its owning state is the node's state at
ordinal position 1 (and not the one at position 0): the `continue` taken for
the filtered occurrence skips the `state_index += 1` at the end of the loop
body, so records do not carry the zero-based index of their state within
its node. -/
theorem state_index_skipped_on_filtered_call :
    extractCalls [bugNode] = Except.ok [bugRecord] ∧
    bugRecord.state_index = 0 ∧
    bugNode.states[1]? = some bugRecord.state ∧
    ¬ bugNode.states[0]? = some bugRecord.state := by
  refine ⟨rfl, rfl, rfl, by decide⟩

/-- Witness for C1 at a concrete input: the `CALL` with concrete target 3
(inside the precompile range) produces no record and no index increment. -/
theorem precompile_call_not_recorded_witness :
    (0 < 3 ∧ 3 ≤ PRECOMPILE_COUNT) ∧
    stateStep bugNode filteredCallState 0 = Except.ok ([], false) :=
  ⟨⟨by decide, by decide⟩,
   precompile_call_not_recorded bugNode filteredCallState 0 3
     (Value.concrete 100) (Value.concrete 0) (Value.concrete 0) (Value.concrete 4)
     (Value.concrete 8) (Value.concrete 7)
     (Or.inl rfl) rfl rfl rfl rfl rfl rfl rfl (by decide) (by decide)⟩

/-- Witness for C2 at a concrete input: a `CALLCODE` with concrete
input-offset 0 and input-size 4 materializes exactly the four memory
bytes. -/
theorem call_data_materialization_witness :
    precompileFiltered (Value.concrete 0xdead) = false ∧
    stateStep bugNode callcodeState 5 = Except.ok
      ([{ node := bugNode, state := callcodeState, state_index := 5,
          op := "CALLCODE", «to» := Value.concrete 0xdead, gas := Value.concrete 21,
          value := some (Value.concrete 0),
          data := some [170, 187, 204, 221] }], true) :=
  ⟨rfl,
   ((call_data_materialization bugNode callcodeState 5 (Value.concrete 21)
       (Value.concrete 0xdead) (Value.concrete 0) (Value.concrete 0) (Value.concrete 4)
       (Value.concrete 8) (Value.concrete 7)
       (Or.inr rfl) rfl rfl rfl rfl rfl rfl rfl rfl).1 0 4 rfl rfl).1⟩

/-- Witness for C3 at a concrete input: a `STATICCALL` to target 5 — inside
the precompile range — still yields its record, with target and gas only. -/
theorem delegate_static_record_shape_witness :
    (0 < 5 ∧ 5 ≤ PRECOMPILE_COUNT) ∧
    stateStep bugNode staticState 2 = Except.ok
      ([{ node := bugNode, state := staticState, state_index := 2,
          op := "STATICCALL", «to» := Value.concrete 5, gas := Value.concrete 9,
          value := none, data := none }], true) :=
  ⟨⟨by decide, by decide⟩,
   delegate_static_record_shape bugNode staticState 2 (Value.concrete 9)
     (Value.concrete 5) (Value.concrete 0) (Value.concrete 0) (Value.concrete 4)
     (Value.concrete 8)
     (Or.inr rfl) rfl rfl rfl rfl rfl rfl⟩

/-- Witness for C10 at a concrete input: a `CALL` whose target operand is
symbolic is always recorded. -/
theorem nonprecompile_target_always_recorded_witness :
    ∃ c, stateStep bugNode symbolicCallState 0 = Except.ok ([c], true) ∧
      c.«to» = Value.symbolic 0 ∧
      c.op = symbolicCallState.get_current_instruction.opcode :=
  nonprecompile_target_always_recorded bugNode symbolicCallState 0 (Value.concrete 11)
    (Value.symbolic 0) (Value.concrete 0) (Value.concrete 0) (Value.concrete 4)
    (Value.concrete 8) (Value.concrete 7)
    (Or.inl rfl) rfl rfl rfl rfl rfl rfl rfl (Or.inl ⟨0, rfl⟩)

/-- Witness for C9 at a concrete input: a `CALL` state with an empty stack
makes the extraction step, and the pass containing it, fail with the
out-of-range indexing error. -/
theorem call_stack_arity_requirement_witness :
    emptyStackCallState.mstate.stack.length < 7 ∧
    stateStep nodeUnderflow emptyStackCallState 0 = Except.error "IndexError" ∧
    extractStates nodeUnderflow [emptyStackCallState] 0 = Except.error "IndexError" :=
  ⟨by decide,
   call_stack_arity_requirement.1 nodeUnderflow emptyStackCallState 0
     (Or.inl rfl) (by decide),
   call_stack_arity_requirement.2.2.1 nodeUnderflow emptyStackCallState 0 []
     (call_stack_arity_requirement.1 nodeUnderflow emptyStackCallState 0
       (Or.inl rfl) (by decide))⟩

/-- Witness for C4 at a concrete input: with the compulsory flag off and no
post-phase modules registered, the run completes with all graph-dependent
fields absent — although the environment's graph is one on which the
extraction pass would fail. -/
theorem graph_retention_iff_witness :
    normalizeAddress (AddressLike.int 57005) = Except.ok 57005 ∧
    selectStrategy "dfs" = Except.ok Strategy.DepthFirstSearchStrategy ∧
    ∃ r, (symExecWrapperInit envNoMods contractDirect (AddressLike.int 57005) "dfs"
        none 22 none (some 3) none 2 none false none false true false).result =
        Except.ok r ∧
      r.requires_statespace = false ∧ r.nodes = none ∧ r.edges = none ∧ r.calls = none :=
  ⟨by simp [normalizeAddress], rfl,
   (graph_retention_iff envNoMods contractDirect (AddressLike.int 57005) "dfs" none 22
      none (some 3) none 2 none false none false true false 57005
      Strategy.DepthFirstSearchStrategy (by simp [normalizeAddress]) rfl).2 rfl rfl⟩

/-- Witness for C5 at a concrete input: the unrecognized name `"smart"`
aborts the orchestrator with the invalid-strategy error and an empty
construction trace. -/
theorem strategy_selection_spec_witness :
    ("smart" ≠ "dfs" ∧ "smart" ≠ "bfs" ∧ "smart" ≠ "naive-random" ∧
     "smart" ≠ "weighted-random") ∧
    selectStrategy "smart" = Except.error "Invalid strategy argument supplied" ∧
    symExecWrapperInit envNoMods contractDirect (AddressLike.int 57005) "smart" none 22
      none (some 3) none 2 none true none false true false =
      { effects := [], result := Except.error "Invalid strategy argument supplied" } :=
  ⟨⟨by decide, by decide, by decide, by decide⟩,
   (strategy_selection_spec.2 "smart" (by decide) (by decide) (by decide) (by decide)).1,
   (strategy_selection_spec.2 "smart" (by decide) (by decide) (by decide) (by decide)).2
     envNoMods contractDirect (AddressLike.int 57005) none 22 none (some 3) none 2 none
     true none false true false 57005 (by simp [normalizeAddress])⟩

/-- Witness for C6 at a concrete input: for the contract without creation
code the orchestrator's account mapping is the attacker-only bootstrap
set. -/
theorem account_bootstrap_spec_witness :
    normalizeAddress (AddressLike.int 57005) = Except.ok 57005 ∧
    selectStrategy "bfs" = Except.ok Strategy.BreadthFirstSearchStrategy ∧
    (symExecWrapperInit envNoMods contractDirect (AddressLike.int 57005) "bfs" none 22
       none (some 3) none 2 none false none false true false).result =
      Except.ok resultDirect ∧
    resultDirect.accounts = bootstrapAccounts contractDirect.creation_code :=
  ⟨by simp [normalizeAddress], rfl, rfl,
   account_bootstrap_spec.2.2 envNoMods contractDirect (AddressLike.int 57005) "bfs"
     none 22 none (some 3) none 2 none false none false true false 57005
     Strategy.BreadthFirstSearchStrategy resultDirect
     (by simp [normalizeAddress]) rfl rfl⟩

/-- Witness for C8 at a concrete input: the bytecode-level contract without
creation code is dispatched to a direct-entry session, with the deployed
account added to the world state and concrete storage on (the loader's
storage loading is enabled). -/
theorem run_dispatch_spec_witness :
    (contractDirect.kind = ContractKind.evm ∧ contractDirect.creation_code = "") ∧
    concreteStorageFlag (some loaderOn) = true ∧
    resultDispatch.sym_exec_call = SymExecCall.direct 57005 ∧
    resultDispatch.world_state =
      (bootstrapAccounts contractDirect.creation_code).map Prod.snd ++
      [{ address := 57005, code := contractDirect.disassembly,
         dynamic_loader := some loaderOn, contract_name := some contractDirect.name,
         concrete_storage := concreteStorageFlag (some loaderOn) }] :=
  ⟨⟨rfl, rfl⟩, rfl,
   (run_dispatch_spec envNoMods contractDirect (AddressLike.int 57005) "dfs"
      (some loaderOn) 22 none (some 3) none 2 none false none false true false 57005
      Strategy.DepthFirstSearchStrategy resultDispatch
      (by simp [normalizeAddress]) rfl rfl).2 ⟨rfl, rfl⟩⟩

end Mythril
